import Mathlib

/-!
Shallow embedding of the motor/PID control core of the ros repository:
`src/lib/motor_v2.py`, `src/lib/pid.py` and `src/lib/enums.py`.

Python floats are modelled as rationals (`ℚ`); every numeric literal of the
source appears as the exact rational it denotes (e.g. `0.99 = 99/100`,
`66.7 = 667/10`).  Hardware calls (`SetMotor1/2`, `GetMotor1/2`) are modelled
explicitly: commands issued to the driver board are returned as values, and
the board's replies to `GetMotor` calls are supplied as a list of
`Option ℚ` (a `none` reply is Python's `None`, "no reading yet").
-/

/-! ## enums.py -/

/-- Embeds `Velocity` (src/lib/enums.py, lines 105-142): the closed
enumeration of named velocity setpoints. -/
inductive Velocity where
  | STOP
  | DEAD_SLOW
  | SLOW
  | HALF
  | TWO_THIRDS
  | THREE_QUARTER
  | FULL
  | EMERGENCY
  | MAXIMUM
deriving DecidableEq

/-- The numeric value carried by each `Velocity` variant
(src/lib/enums.py, lines 106-114). -/
def Velocity.value : Velocity → ℚ
  | .STOP          => 0
  | .DEAD_SLOW     => 20
  | .SLOW          => 30
  | .HALF          => 50
  | .TWO_THIRDS    => 667/10
  | .THREE_QUARTER => 75
  | .FULL          => 90
  | .EMERGENCY     => 100
  | .MAXIMUM       => 100000001/1000000

/-- Embeds `Velocity.get_slower_than` (src/lib/enums.py, lines 124-142):
a chain of strict upper-bound tests returning the next lower setpoint. -/
def Velocity.get_slower_than (velocity : ℚ) : Velocity :=
  if velocity < Velocity.DEAD_SLOW.value then Velocity.STOP
  else if velocity < Velocity.SLOW.value then Velocity.DEAD_SLOW
  else if velocity < Velocity.HALF.value then Velocity.SLOW
  else if velocity < Velocity.TWO_THIRDS.value then Velocity.HALF
  else if velocity < Velocity.THREE_QUARTER.value then Velocity.TWO_THIRDS
  else if velocity < Velocity.FULL.value then Velocity.THREE_QUARTER
  else Velocity.FULL

/-- Embeds `Direction` (src/lib/enums.py, lines 41-43). -/
inductive Direction where
  | FORWARD
  | REVERSE
deriving DecidableEq

/-- Embeds `SlewRate` (src/lib/enums.py, lines 146-153); only the
constructor tags are needed by the motor interface. -/
inductive SlewRate where
  | EXTREMELY_SLOW
  | VERY_SLOW
  | SLOWER
  | SLOW
  | NORMAL
  | FAST
  | VERY_FAST
deriving DecidableEq

/-- The per-tick slew ratio carried by each `SlewRate` variant
(src/lib/enums.py, lines 147-153, second tuple component). -/
def SlewRate.ratio : SlewRate → ℚ
  | .EXTREMELY_SLOW => 34/10000
  | .VERY_SLOW      => 1/100
  | .SLOWER         => 3/100
  | .SLOW           => 5/100
  | .NORMAL         => 8/100
  | .FAST           => 20/100
  | .VERY_FAST      => 40/100

/-! ## motor_v2.py : the driver-board read path -/

/-- Embeds the retry loop of `Motor.get_current_power_level`
(src/lib/motor_v2.py, lines 387-398): starting with `value = None` and
`count = 0`, while `value == None and count < 20` another `GetMotor` call is
made.  The board's successive replies are the list `reads`; an exhausted
list behaves as a board that keeps replying `None`. -/
def readAttempts : Nat → List (Option ℚ) → Option ℚ
  | 0, _ => none
  | Nat.succ fuel, [] => readAttempts fuel []
  | Nat.succ fuel, reply :: rest =>
    match reply with
    | some v => some v
    | none => readAttempts fuel rest

/-- Embeds the returned Python value of `Motor.get_current_power_level`
(src/lib/motor_v2.py, lines 399-402): `if value == None: return 0.0
else: return value`.  The Python value space is modelled as `Option ℚ`
(`none` = Python `None`); both branches of the source return a float,
so the result is always `some`. -/
def get_current_power_level_val (reads : List (Option ℚ)) : Option ℚ :=
  match readAttempts 20 reads with
  | none => some 0
  | some v => some v

/-- The float produced by `Motor.get_current_power_level`
(src/lib/motor_v2.py, lines 383-402). -/
def get_current_power_level (reads : List (Option ℚ)) : ℚ :=
  (get_current_power_level_val reads).getD 0

/-- Embeds `Motor.is_in_motion` (src/lib/motor_v2.py, lines 303-307):
`return self.get_current_power_level() > 0.0`. -/
def is_in_motion (reads : List (Option ℚ)) : Bool :=
  decide (get_current_power_level reads > 0)

/-- Embeds `Motor.is_stopped` (src/lib/motor_v2.py, lines 376-380). -/
def is_stopped (reads : List (Option ℚ)) : Bool :=
  decide (get_current_power_level reads = 0)

/-- Embeds the opening of `Motor.accelerate` (src/lib/motor_v2.py, lines
414-417): `_current_power_level = self.get_current_power_level()` followed
by `if _current_power_level is None: raise RuntimeError(...)`.  The raise
is modelled as `Except.error ()`; the value inspected is the Python value
returned by `get_current_power_level`. -/
def accelerate_current_power (reads : List (Option ℚ)) : Except Unit ℚ :=
  match get_current_power_level_val reads with
  | none => Except.error ()
  | some v => Except.ok v

/-! ## motor_v2.py : set_motor_power and its state -/

/-- The motor bookkeeping state touched by `Motor.set_motor_power`
(src/lib/motor_v2.py, lines 88-94 initialise these fields):
`boardPower` is the driving power currently held by the driver board
(what `GetMotor` reports after the last `SetMotor`), `maxPower` is
`self._max_power` and `maxDrivingPower` is `self._max_driving_power`. -/
structure MotorState where
  boardPower : ℚ
  maxPower : ℚ
  maxDrivingPower : ℚ
deriving DecidableEq

/-- `self._motor_power_limit = 0.99` (src/lib/motor_v2.py, line 88). -/
def motor_power_limit : ℚ := 99/100

/-- Embeds `Motor.set_motor_power` (src/lib/motor_v2.py, lines 333-365),
with the configured `self._max_power_ratio` passed as `mratio` and the
driver board modelled as replying with the stored driving power.  The
second component is the hardware command issued (`SetMotor1/2`), `none`
when the request was rejected by a safety check. -/
def set_motor_power (mratio : ℚ) (s : MotorState) (power_level : ℚ) :
    MotorState × Option ℚ :=
  if power_level > motor_power_limit then (s, none)
  else if power_level < -1 * motor_power_limit then (s, none)
  else
    let current := s.boardPower
    if |current - power_level| > 3/10 ∧ current > 0 ∧ power_level < 0 then (s, none)
    else if |current - power_level| > 3/10 ∧ current < 0 ∧ power_level > 0 then (s, none)
    else
      let driving := power_level * mratio
      (⟨driving, max power_level s.maxPower, max |driving| s.maxDrivingPower⟩,
       some driving)

/-- The logical current power of the motor: the board's driving power
scaled back by `1.0 / self._max_power_ratio` as in src/lib/motor_v2.py,
line 419 and src/lib/pid.py, line 283. -/
def currentPower (mratio : ℚ) (s : MotorState) : ℚ :=
  s.boardPower * (1 / mratio)

/-! ## motor_v2.py : the ahead/astern wrappers -/

/-- The argument triple a motion wrapper passes to `Motor.accelerate`
(speed, slew rate, step limit). -/
structure AccelCall where
  speed : ℚ
  slew : SlewRate
  steps : ℤ
deriving DecidableEq

/-- Embeds `Motor.ahead` (src/lib/motor_v2.py, lines 263-270):
`self.accelerate(speed, SlewRate.NORMAL, -1)`. -/
def ahead (speed : ℚ) : AccelCall := ⟨speed, SlewRate.NORMAL, -1⟩

/-- Embeds `Motor.stepAhead` (src/lib/motor_v2.py, lines 273-280):
`self.accelerate(speed, SlewRate.NORMAL, steps)`. -/
def stepAhead (speed : ℚ) (steps : ℤ) : AccelCall := ⟨speed, SlewRate.NORMAL, steps⟩

/-- Embeds `Motor.astern` (src/lib/motor_v2.py, lines 283-290):
`self.accelerate(-1.0 * speed, SlewRate.NORMAL, -1)`. -/
def astern (speed : ℚ) : AccelCall := ⟨-1 * speed, SlewRate.NORMAL, -1⟩

/-- Embeds `Motor.stepAstern` (src/lib/motor_v2.py, lines 293-300):
`self.accelerate(speed, SlewRate.NORMAL, steps)` (the speed is not
negated in the source). -/
def stepAstern (speed : ℚ) (steps : ℤ) : AccelCall := ⟨speed, SlewRate.NORMAL, steps⟩

/-- The normalized target `accelerate` derives from its speed argument:
`_desired_div_100 = float(speed / 100)` (src/lib/motor_v2.py, line 422). -/
def accelTarget (c : AccelCall) : ℚ := c.speed / 100

/-! ## pid.py -/

/-- Embeds `numpy.isclose(a, b, rtol, atol)` for finite scalars:
`absolute(a - b) <= (atol + rtol * absolute(b))`. -/
def isclose (a b rtol atol : ℚ) : Bool :=
  decide (|a - b| ≤ atol + rtol * |b|)

/-- Embeds `PID.equals_zero` (src/lib/pid.py, lines 363-369):
`numpy.isclose(value, 0.0, rtol=0.02, atol=0.0)`. -/
def equals_zero (value : ℚ) : Bool :=
  isclose value 0 (2/100) 0

/-- The PID configuration read in `PID.__init__` from the
`ros:motors:pid:` section (src/lib/pid.py, lines 62-75). -/
structure PIDConfig where
  kp : ℚ
  ki : ℚ
  kd : ℚ
  enable_p : Bool
  enable_i : Bool
  enable_d : Bool
  clip_max : ℚ
  enable_slew : Bool
deriving DecidableEq

/-- The mutable PID accumulators `self._last_error` and `self._sum_errors`
(src/lib/pid.py, lines 50-51). -/
structure PIDState where
  last_error : ℚ
  sum_errors : ℚ
deriving DecidableEq

/-- The accumulator values set by `PID.__init__`
(src/lib/pid.py, lines 50-51): both zero. -/
def pid_init : PIDState := ⟨0, 0⟩

/-- Embeds the clip lambda of `PID.__init__` (src/lib/pid.py, lines 66-68):
`_clip_min if n <= _clip_min else _clip_max if n >= _clip_max else n`
with `_clip_min = -1.0 * _clip_max`. -/
def clip (cfg : PIDConfig) (n : ℚ) : ℚ :=
  if n ≤ -1 * cfg.clip_max then -1 * cfg.clip_max
  else if n ≥ cfg.clip_max then cfg.clip_max
  else n

/-- The outcome of one `PID._compute` call: the updated accumulators, the
argument of the `set_motor_power` call it issued (`none` when no call was
made), and the returned `_changed` flag. -/
structure ComputeResult where
  state : PIDState
  setPowerCall : Option ℚ
  changed : Bool
deriving DecidableEq

/-- Embeds `PID._compute` (src/lib/pid.py, lines 268-359).  Inputs read
from the motor during the tick: `current_velocity` (`get_velocity()`),
`board_power` (`get_current_power_level()`), and the configured
`get_max_power_ratio()` as `mratio`.  The redundant inner conditionals of
the I and D terms (src lines 309 and 317) are kept as written. -/
def compute (cfg : PIDConfig) (st : PIDState)
    (target_velocity current_velocity board_power mratio : ℚ) : ComputeResult :=
  let error := target_velocity - current_velocity
  let current_power := board_power * (1 / mratio)
  if equals_zero error then
    if target_velocity = 0 then
      ⟨⟨0, st.sum_errors⟩, some 0, false⟩
    else
      ⟨⟨0, st.sum_errors⟩, none, false⟩
  else
    let p_diff := if cfg.enable_p then cfg.kp * error else 0
    let i_diff := if cfg.enable_i then
        (if cfg.enable_i then cfg.ki * st.sum_errors else 0) else 0
    let d_diff := if cfg.enable_d then
        (if cfg.enable_d then cfg.kd * st.last_error else 0) else 0
    let output := p_diff + i_diff + d_diff
    let clipped_output := clip cfg output
    let power_level := current_power + clipped_output
    ⟨⟨error, st.sum_errors + error⟩, some power_level, true⟩

/-- Embeds `PID.is_stepping` (src/lib/pid.py, lines 144-159) as a
predicate on the motor step count and the stored step limit. -/
def is_stepping (d : Direction) (steps step_limit : ℤ) : Bool :=
  match d with
  | .FORWARD => decide (steps < step_limit)
  | .REVERSE => decide (steps > step_limit)

/-- The motor readings one iteration of the `step_to` loop observes:
`f_is_enabled()`, `get_steps()`, `get_velocity()`,
`get_current_power_level()` and `is_interrupted()`. -/
structure Tick where
  enabled : Bool
  steps : ℤ
  velocity : ℚ
  board_power : ℚ
  interrupted : Bool
deriving DecidableEq

/-- The while loop of `PID.step_to` (src/lib/pid.py, lines 205-227 for
FORWARD, identically 235-255 for REVERSE, sharing one body here since the
two branches differ only in log output): while `f_is_enabled() and
self.is_stepping(direction)`, compute against the (possibly slewed)
target, break when nothing changed at zero velocity and zero target with a
positive step limit, and break when the motor was interrupted.  The
stateful `SlewLimiter.slew` (lib/slew.py, not under src/) is abstracted as
the function argument `slewFn`. -/
def step_to_loop (cfg : PIDConfig) (mratio tv : ℚ) (d : Direction)
    (step_limit : ℤ) (slewFn : ℚ → ℚ → ℚ) :
    PIDState → List Tick → PIDState
  | st, [] => st
  | st, t :: rest =>
    if t.enabled = true ∧ is_stepping d t.steps step_limit = true then
      let tgt := if cfg.enable_slew then slewFn t.velocity tv else tv
      let r := compute cfg st tgt t.velocity t.board_power mratio
      if r.changed = false ∧ t.velocity = 0 ∧ tv = 0 ∧ step_limit > 0 then
        r.state
      else if t.interrupted = true then
        r.state
      else
        step_to_loop cfg mratio tv d step_limit slewFn r.state rest
    else st

/-- Embeds `PID.step_to` (src/lib/pid.py, lines 174-265) restricted to the
PID accumulator state it threads: the target is `target_velocity.value`,
negated for REVERSE (src line 231); the loop then runs over the supplied
tick readings (an exhausted list models `f_is_enabled()` turning false).
Nothing in the source resets `last_error` or `sum_errors` before, during
or after the loop outside of `_compute` itself. -/
def step_to (cfg : PIDConfig) (mratio : ℚ) (target_velocity : Velocity)
    (d : Direction) (step_limit : ℤ) (slewFn : ℚ → ℚ → ℚ)
    (st : PIDState) (ticks : List Tick) : PIDState :=
  let tv := match d with
    | .FORWARD => target_velocity.value
    | .REVERSE => -1 * target_velocity.value
  step_to_loop cfg mratio tv d step_limit slewFn st ticks

/-! ## Theorems -/

/-- `equals_zero` accepts exactly the value zero: with `atol = 0` the
`numpy.isclose` tolerance is `0 + rtol * |0.0| = 0`. -/
lemma equals_zero_eq_decide (x : ℚ) : equals_zero x = decide (x = 0) := by
  simp only [equals_zero, isclose, sub_zero, abs_zero, mul_zero, add_zero]
  rw [decide_eq_decide]
  exact abs_nonpos_iff

/-- Claim C1 (code_bug evidence): `equals_zero` evaluated at the spec's
own example inputs.  The tolerance `atol + rtol * |0.0|` is exactly zero,
so `equals_zero(0.001)` is false although the docstring of
`PID.equals_zero` ("Returns True if the value is within 2% of 0.0") and
the claim say it is true; only exact zero satisfies the test. -/
theorem c1_equals_zero_at_examples :
    equals_zero (1/1000) = false ∧ equals_zero 5 = false ∧
    equals_zero 0 = true ∧ (∀ x : ℚ, equals_zero x = true ↔ x = 0) := by
  refine ⟨?_, ?_, ?_, fun x => ?_⟩ <;> rw [equals_zero_eq_decide] <;> simp

/-- Claim C2: a requested power whose sign is opposite to the current
power, and whose distance from the current power exceeds the fixed jump
threshold 0.3, is rejected by `set_motor_power`: no hardware command is
issued and the motor state is unchanged. -/
theorem c2_sign_reversing_jump_rejected (m : ℚ) (s : MotorState) (p : ℚ)
    (hsign : (0 < s.boardPower ∧ p < 0) ∨ (s.boardPower < 0 ∧ 0 < p))
    (hjump : 3/10 < |s.boardPower - p|) :
    set_motor_power m s p = (s, none) := by
  simp only [set_motor_power]
  split_ifs with h1 h2 h3 h4
  · rfl
  · rfl
  · rfl
  · rfl
  · rcases hsign with ⟨hc, hp⟩ | ⟨hc, hp⟩
    · exact absurd ⟨hjump, hc, hp⟩ h3
    · exact absurd ⟨hjump, hc, hp⟩ h4

/-- Witness for C2: current power `+0.5`, requested power `-0.2` (the
spec's own example) is rejected. -/
theorem c2_witness :
    ((0:ℚ) < 1/2 ∧ (-1/5 : ℚ) < 0) ∧ (3/10 : ℚ) < |(1/2 : ℚ) - (-1/5)| ∧
    set_motor_power 1 ⟨1/2, 0, 0⟩ (-1/5) = (⟨1/2, 0, 0⟩, none) := by
  have habs : |(1/2 : ℚ) - (-1/5)| = 7/10 := by norm_num
  refine ⟨⟨by norm_num, by norm_num⟩, by rw [habs]; norm_num, ?_⟩
  exact c2_sign_reversing_jump_rejected 1 ⟨1/2, 0, 0⟩ (-1/5)
    (Or.inl ⟨by norm_num, by norm_num⟩) (by rw [habs]; norm_num)

/-- Claim C3: a power request whose magnitude exceeds the 0.99 limit is
rejected by `set_motor_power` without clamping, leaving the state (and so
the trackers) unchanged; and every `set_motor_power` call preserves
`|current_power| ≤ power_limit`. -/
theorem c3_power_limit_enforced (m : ℚ) (s : MotorState) (p : ℚ) :
    (motor_power_limit < |p| → set_motor_power m s p = (s, none)) ∧
    (|currentPower m s| ≤ motor_power_limit →
      |currentPower m (set_motor_power m s p).1| ≤ motor_power_limit) := by
  constructor
  · intro h
    simp only [set_motor_power]
    by_cases h1 : p > motor_power_limit
    · rw [if_pos h1]
    · have h2 : p < -1 * motor_power_limit := by
        rcases le_or_lt 0 p with hp0 | hp0
        · rw [abs_of_nonneg hp0] at h
          exact absurd h h1
        · rw [abs_of_neg hp0] at h
          linarith
      rw [if_neg h1, if_pos h2]
  · intro hinv
    simp only [set_motor_power]
    split_ifs with h1 h2 h3 h4
    · exact hinv
    · exact hinv
    · exact hinv
    · exact hinv
    · push_neg at h1 h2
      rcases eq_or_ne m 0 with hm | hm
      · subst hm
        show |p * 0 * (1 / 0)| ≤ motor_power_limit
        norm_num [motor_power_limit]
      · show |p * m * (1 / m)| ≤ motor_power_limit
        have hval : p * m * (1 / m) = p := by field_simp
        rw [hval, abs_le]
        constructor <;> linarith

/-- Witness for C3: requested power `2` is rejected from a state at power
`0.5`, and the bounded-power invariant holds before and after the call. -/
theorem c3_witness :
    (motor_power_limit < |(2:ℚ)| ∧
      set_motor_power 1 ⟨1/2, 1/2, 1/2⟩ 2 = (⟨1/2, 1/2, 1/2⟩, none)) ∧
    (|currentPower 1 ⟨1/2, 1/2, 1/2⟩| ≤ motor_power_limit ∧
      |currentPower 1 (set_motor_power 1 ⟨1/2, 1/2, 1/2⟩ 2).1| ≤ motor_power_limit) := by
  have hlim : motor_power_limit < |(2:ℚ)| := by
    rw [show |(2:ℚ)| = 2 by norm_num]
    norm_num [motor_power_limit]
  have hpre : |currentPower 1 (⟨1/2, 1/2, 1/2⟩ : MotorState)| ≤ motor_power_limit := by
    have hc : currentPower 1 (⟨1/2, 1/2, 1/2⟩ : MotorState) = 1/2 := by
      norm_num [currentPower]
    rw [hc, show |(1/2 : ℚ)| = 1/2 by norm_num]
    norm_num [motor_power_limit]
  exact ⟨⟨hlim, (c3_power_limit_enforced 1 ⟨1/2, 1/2, 1/2⟩ 2).1 hlim⟩,
         ⟨hpre, (c3_power_limit_enforced 1 ⟨1/2, 1/2, 1/2⟩ 2).2 hpre⟩⟩

/-- Claim C4 (counterexample): the PID accumulators are NOT reset at the
start of a `step_to` run.  A first one-tick run (target `DEAD_SLOW` = 20,
velocity 0) leaves `sum_errors = 20`; a second, identical run then starts
from 20 and ends at 40 — the error accumulated in the first run carries
into the second run, where a reset would have reproduced 20. -/
theorem c4_counterexample :
    (step_to ⟨1, 1, 1, true, true, true, 100, false⟩ 1 Velocity.DEAD_SLOW
        Direction.FORWARD 10 (fun _ t => t) ⟨0, 0⟩
        [⟨true, 0, 0, 0, false⟩]).sum_errors = 20 ∧
    (step_to ⟨1, 1, 1, true, true, true, 100, false⟩ 1 Velocity.DEAD_SLOW
        Direction.FORWARD 10 (fun _ t => t)
        (step_to ⟨1, 1, 1, true, true, true, 100, false⟩ 1 Velocity.DEAD_SLOW
          Direction.FORWARD 10 (fun _ t => t) ⟨0, 0⟩ [⟨true, 0, 0, 0, false⟩])
        [⟨true, 0, 0, 0, false⟩]).sum_errors = 40 ∧
    (40 : ℚ) ≠ 20 := by
  have h1 : step_to ⟨1, 1, 1, true, true, true, 100, false⟩ 1 Velocity.DEAD_SLOW
      Direction.FORWARD 10 (fun _ t => t) ⟨0, 0⟩ [⟨true, 0, 0, 0, false⟩] =
      ⟨20, 20⟩ := by
    norm_num [step_to, step_to_loop, compute, is_stepping, clip,
      equals_zero_eq_decide, Velocity.value]
  have h2 : step_to ⟨1, 1, 1, true, true, true, 100, false⟩ 1 Velocity.DEAD_SLOW
      Direction.FORWARD 10 (fun _ t => t) ⟨20, 20⟩ [⟨true, 0, 0, 0, false⟩] =
      ⟨20, 40⟩ := by
    norm_num [step_to, step_to_loop, compute, is_stepping, clip,
      equals_zero_eq_decide, Velocity.value]
  rw [h1, h2]
  norm_num

/-- Claim C4 (amended): `last_error` and `sum_errors` persist across ticks
within a run AND across runs: a `step_to` run that executes no loop
iteration returns the accumulators exactly as it received them — nothing
in `step_to` resets them; they are zeroed only by construction. -/
theorem c4_accumulators_persist (cfg : PIDConfig) (m : ℚ) (tv : Velocity)
    (d : Direction) (lim : ℤ) (slewFn : ℚ → ℚ → ℚ) (st : PIDState)
    (t : Tick) (ts : List Tick)
    (h : ¬(t.enabled = true ∧ is_stepping d t.steps lim = true)) :
    step_to cfg m tv d lim slewFn st [] = st ∧
    step_to cfg m tv d lim slewFn st (t :: ts) = st := by
  constructor
  · rfl
  · simp only [step_to, step_to_loop]
    rw [if_neg h]

/-- Witness for the amended C4: a run whose first tick is disabled leaves
the previously accumulated state `⟨3, 5⟩` untouched. -/
theorem c4_persist_witness :
    step_to ⟨1, 1, 1, true, true, true, 100, false⟩ 1 Velocity.DEAD_SLOW
      Direction.FORWARD 10 (fun _ t => t) ⟨3, 5⟩ [] = ⟨3, 5⟩ ∧
    step_to ⟨1, 1, 1, true, true, true, 100, false⟩ 1 Velocity.DEAD_SLOW
      Direction.FORWARD 10 (fun _ t => t) ⟨3, 5⟩ [⟨false, 0, 0, 0, false⟩] =
      ⟨3, 5⟩ :=
  c4_accumulators_persist ⟨1, 1, 1, true, true, true, 100, false⟩ 1
    Velocity.DEAD_SLOW Direction.FORWARD 10 (fun _ t => t) ⟨3, 5⟩
    ⟨false, 0, 0, 0, false⟩ [] (by simp)

/-- Claim C5 (counterexample): an accepted command of power `-0.5` from a
fresh motor leaves `max_power` at `0`, not at the commanded magnitude
`0.5` — the source updates `_max_power` with the SIGNED maximum
`max(power_level, _max_power)`, without absolute value. -/
theorem c5_counterexample :
    (set_motor_power 1 ⟨0, 0, 0⟩ (-1/2)).2 = some (-1/2) ∧
    ((set_motor_power 1 ⟨0, 0, 0⟩ (-1/2)).1).maxPower = 0 ∧
    ((set_motor_power 1 ⟨0, 0, 0⟩ (-1/2)).1).maxPower ≠ |(-1/2 : ℚ)| := by
  have h : set_motor_power 1 ⟨0, 0, 0⟩ (-1/2) = (⟨-1/2, 0, 1/2⟩, some (-1/2)) := by
    norm_num [set_motor_power, motor_power_limit, Prod.ext_iff, MotorState.mk.injEq]
  rw [h, show |(-1/2 : ℚ)| = 1/2 by norm_num]
  norm_num

/-- Claim C5 (amended): both trackers are monotonically non-decreasing
under every `set_motor_power` call; an accepted call updates `max_power`
to the signed maximum `max(power_level, max_power)` and
`max_driving_power` to the maximum absolute driving power
`max(|power_level * ratio|, max_driving_power)`; a rejected call leaves
the whole state unchanged. -/
theorem c5_trackers_monotone (m : ℚ) (s : MotorState) (p : ℚ) :
    s.maxPower ≤ ((set_motor_power m s p).1).maxPower ∧
    s.maxDrivingPower ≤ ((set_motor_power m s p).1).maxDrivingPower ∧
    ((set_motor_power m s p).2 ≠ none →
      ((set_motor_power m s p).1).maxPower = max p s.maxPower ∧
      ((set_motor_power m s p).1).maxDrivingPower = max |p * m| s.maxDrivingPower) ∧
    ((set_motor_power m s p).2 = none → (set_motor_power m s p).1 = s) := by
  simp only [set_motor_power]
  split_ifs with h1 h2 h3 h4
  · exact ⟨le_refl _, le_refl _, fun hne => absurd rfl hne, fun _ => rfl⟩
  · exact ⟨le_refl _, le_refl _, fun hne => absurd rfl hne, fun _ => rfl⟩
  · exact ⟨le_refl _, le_refl _, fun hne => absurd rfl hne, fun _ => rfl⟩
  · exact ⟨le_refl _, le_refl _, fun hne => absurd rfl hne, fun _ => rfl⟩
  · refine ⟨le_max_right _ _, le_max_right _ _, fun _ => ⟨rfl, rfl⟩, fun he => ?_⟩
    simp at he

/-- Witness for the amended C5: the accepted `-0.5` command from a fresh
motor realizes the amended update formulas. -/
theorem c5_witness :
    (set_motor_power 1 ⟨0, 0, 0⟩ (-1/2)).2 ≠ none ∧
    ((set_motor_power 1 ⟨0, 0, 0⟩ (-1/2)).1).maxPower = max (-1/2) 0 ∧
    ((set_motor_power 1 ⟨0, 0, 0⟩ (-1/2)).1).maxDrivingPower =
      max |(-1/2 : ℚ) * 1| 0 := by
  have hne : (set_motor_power 1 ⟨0, 0, 0⟩ (-1/2)).2 ≠ none := by
    norm_num [set_motor_power, motor_power_limit]
    simp
  have h := (c5_trackers_monotone 1 ⟨0, 0, 0⟩ (-1/2)).2.2.1 hne
  exact ⟨hne, h.1, h.2⟩

/-- Claim C6: when the velocity error is not within the `equals_zero`
tolerance, `_compute` returns P + I + D with `P = kp * error`,
`I = ki * sum_errors` (the running sum, before this tick's error is
added), `D = kd * last_error` (the previous tick's error), each term zero
when its flag is off; it clips the sum symmetrically, issues
`set_motor_power(current_power + clipped_output)`, and only afterwards
stores `last_error = error` and `sum_errors += error`, returning
`changed = true`. -/
theorem c6_compute_formula (cfg : PIDConfig) (st : PIDState)
    (tgt v board m : ℚ) (h : equals_zero (tgt - v) = false) :
    compute cfg st tgt v board m =
      ⟨⟨tgt - v, st.sum_errors + (tgt - v)⟩,
       some (board * (1 / m) + clip cfg
         ((if cfg.enable_p then cfg.kp * (tgt - v) else 0) +
          (if cfg.enable_i then cfg.ki * st.sum_errors else 0) +
          (if cfg.enable_d then cfg.kd * st.last_error else 0))),
       true⟩ := by
  by_cases hp : cfg.enable_p <;> by_cases hi : cfg.enable_i <;>
    by_cases hd : cfg.enable_d <;>
    simp [compute, h, hp, hi, hd]

/-- Witness for C6: tuning `(kp, ki, kd) = (1/2, 1/4, 1/8)`, clip bound 1,
accumulators `⟨2, 3⟩`, target 20, velocity 10, power 1/2: the output
`5 + 3/4 + 1/4 = 6` clips to 1, the issued power is `3/2`, and the
accumulators become `⟨10, 13⟩`. -/
theorem c6_witness :
    equals_zero ((20 : ℚ) - 10) = false ∧
    compute ⟨1/2, 1/4, 1/8, true, true, true, 1, false⟩ ⟨2, 3⟩ 20 10 (1/2) 1 =
      ⟨⟨10, 13⟩, some (3/2), true⟩ := by
  have h : equals_zero ((20 : ℚ) - 10) = false := by
    rw [equals_zero_eq_decide]
    norm_num
  refine ⟨h, ?_⟩
  have h2 := c6_compute_formula ⟨1/2, 1/4, 1/8, true, true, true, 1, false⟩
    ⟨2, 3⟩ 20 10 (1/2) 1 h
  rw [h2]
  norm_num [clip, PIDState.mk.injEq, ComputeResult.mk.injEq]

/-- Claim C7 (counterexample): at the boundary input 30 (the value of
`SLOW`), `get_slower_than` returns `SLOW` itself, whose value is NOT
strictly below 30 — so the claim fails at the named setpoint values. -/
theorem c7_counterexample :
    Velocity.get_slower_than 30 = Velocity.SLOW ∧
    ¬((Velocity.get_slower_than 30).value < 30) := by
  have h : Velocity.get_slower_than 30 = Velocity.SLOW := by
    norm_num [Velocity.get_slower_than, Velocity.value]
  rw [h]
  norm_num [Velocity.value]

/-- Claim C7 (amended): for every x in 0-100 that is not itself one of
the named setpoint values 0, 20, 30, 50, 66.7, 75, 90, `get_slower_than`
returns the nearest named setpoint whose value is strictly below x; the
spec examples `get_slower_than(45) = SLOW` and `get_slower_than(10) =
STOP` hold. -/
theorem c7_get_slower_than_amended (x : ℚ) (h0 : 0 ≤ x) (h1 : x ≤ 100)
    (hb : x ≠ 0 ∧ x ≠ 20 ∧ x ≠ 30 ∧ x ≠ 50 ∧ x ≠ 667/10 ∧ x ≠ 75 ∧ x ≠ 90) :
    (Velocity.get_slower_than x).value < x ∧
    (∀ v : Velocity, v.value < x → v.value ≤ (Velocity.get_slower_than x).value) ∧
    Velocity.get_slower_than 45 = Velocity.SLOW ∧
    Velocity.get_slower_than 10 = Velocity.STOP := by
  obtain ⟨b0, b20, b30, b50, b667, b75, b90⟩ := hb
  have hex1 : Velocity.get_slower_than 45 = Velocity.SLOW := by
    norm_num [Velocity.get_slower_than, Velocity.value]
  have hex2 : Velocity.get_slower_than 10 = Velocity.STOP := by
    norm_num [Velocity.get_slower_than, Velocity.value]
  have hmain : (Velocity.get_slower_than x).value < x ∧
      ∀ v : Velocity, v.value < x → v.value ≤ (Velocity.get_slower_than x).value := by
    simp only [Velocity.get_slower_than, Velocity.value]
    split_ifs with hA hB hC hD hE hF
    · exact ⟨lt_of_le_of_ne h0 (Ne.symm b0),
        fun v => by cases v <;> simp only [Velocity.value] <;> intro hv <;> linarith⟩
    · exact ⟨lt_of_le_of_ne (not_lt.mp hA) (Ne.symm b20),
        fun v => by cases v <;> simp only [Velocity.value] <;> intro hv <;> linarith⟩
    · exact ⟨lt_of_le_of_ne (not_lt.mp hB) (Ne.symm b30),
        fun v => by cases v <;> simp only [Velocity.value] <;> intro hv <;> linarith⟩
    · exact ⟨lt_of_le_of_ne (not_lt.mp hC) (Ne.symm b50),
        fun v => by cases v <;> simp only [Velocity.value] <;> intro hv <;> linarith⟩
    · exact ⟨lt_of_le_of_ne (not_lt.mp hD) (Ne.symm b667),
        fun v => by cases v <;> simp only [Velocity.value] <;> intro hv <;> linarith⟩
    · exact ⟨lt_of_le_of_ne (not_lt.mp hE) (Ne.symm b75),
        fun v => by cases v <;> simp only [Velocity.value] <;> intro hv <;> linarith⟩
    · exact ⟨lt_of_le_of_ne (not_lt.mp hF) (Ne.symm b90),
        fun v => by cases v <;> simp only [Velocity.value] <;> intro hv <;> linarith⟩
  exact ⟨hmain.1, hmain.2, hex1, hex2⟩

/-- Witness for the amended C7 at x = 45. -/
theorem c7_witness :
    (Velocity.get_slower_than 45).value < 45 ∧
    (∀ v : Velocity, v.value < 45 → v.value ≤ (Velocity.get_slower_than 45).value) ∧
    Velocity.get_slower_than 45 = Velocity.SLOW ∧
    Velocity.get_slower_than 10 = Velocity.STOP :=
  c7_get_slower_than_amended 45 (by norm_num) (by norm_num)
    ⟨by norm_num, by norm_num, by norm_num, by norm_num, by norm_num,
     by norm_num, by norm_num⟩

/-- Claim C8 (code_bug evidence): with the board unreadable for all 20
attempts, `get_current_power_level` returns 0.0 (after exactly 20
attempts: a reply on the 20th attempt is still taken, on the 21st it is
not); `accelerate` then receives that 0.0 — never `None` — so its
raise-on-None guard is unreachable and the ramp silently proceeds
assuming zero current power instead of failing fatally. -/
theorem c8_unreadable_power_silently_zero :
    get_current_power_level (List.replicate 20 none) = 0 ∧
    accelerate_current_power (List.replicate 20 none) = Except.ok 0 ∧
    get_current_power_level (List.replicate 19 none ++ [some (1/2)]) = 1/2 ∧
    get_current_power_level (List.replicate 20 none ++ [some (1/2)]) = 0 :=
  ⟨rfl, rfl, rfl, rfl⟩

/-- Claim C9: `is_in_motion` is true exactly when the driver-reported
power is strictly positive; a motor driven astern (negative reported
power) is reported as not in motion. -/
theorem c9_in_motion_iff_positive (v : ℚ) (rest : List (Option ℚ)) :
    (is_in_motion (some v :: rest) = true ↔ 0 < v) ∧
    (v < 0 → is_in_motion (some v :: rest) = false) := by
  have hval : is_in_motion (some v :: rest) = decide (0 < v) := rfl
  constructor
  · rw [hval]
    simp only [decide_eq_true_eq]
  · intro hv
    rw [hval, decide_eq_false_iff_not]
    exact not_lt.mpr (le_of_lt hv)

/-- Witness for C9: driver-reported power `-0.5` gives `is_in_motion` =
false. -/
theorem c9_witness :
    ((-1/2 : ℚ) < 0) ∧ is_in_motion [some (-1/2)] = false :=
  ⟨by norm_num, (c9_in_motion_iff_positive (-1/2) []).2 (by norm_num)⟩

/-- Claim C10: `stepAstern` forwards its speed to `accelerate` without
negation, producing exactly the call `stepAhead` produces (same positive
target `speed / 100`); only `astern` negates its speed. -/
theorem c10_stepAstern_unnegated (sp : ℚ) (steps : ℤ) (h : 0 < sp) :
    stepAstern sp steps = stepAhead sp steps ∧
    accelTarget (stepAstern sp steps) = accelTarget (stepAhead sp steps) ∧
    0 < accelTarget (stepAstern sp steps) ∧
    (astern sp).speed = -1 * sp := by
  refine ⟨rfl, rfl, ?_, rfl⟩
  show 0 < sp / 100
  exact div_pos h (by norm_num)

/-- Witness for C10 at speed 50, 494 steps. -/
theorem c10_witness :
    ((0:ℚ) < 50) ∧ stepAstern 50 494 = stepAhead 50 494 ∧
    0 < accelTarget (stepAstern 50 494) ∧ (astern 50).speed = -1 * 50 := by
  have h := c10_stepAstern_unnegated 50 494 (by norm_num)
  exact ⟨by norm_num, h.1, h.2.2.1, h.2.2.2⟩
